import Mathlib

/-!
Verification of the item-code decoding logic of the cabinet quoting repository.

The embedded code lives in `database/scripts/import_cabinet_csv.py`
(`CabinetCSVImporter.parse_item_code`, `normalize_type_code`,
`infer_door_drawer_count`) and in the inline width-extraction block of
`database/scripts/simple_import.py` (`main`, lines 72-91).

Item codes are modelled as `List Char` (Python `str`).  The Python regexes
involved use only the disjoint character classes `[A-Z]` and `\d`, so greedy
quantifiers coincide with maximal runs and each pattern has a unique
factorization; the embeddings below exploit this (the reviewer can check the
equivalence pattern by pattern).  `re.match` anchors at the start only; a `$`
anchor is modelled as "rest of string is empty" (item codes come from
`.strip()`ed CSV fields and contain no trailing newline).
-/

set_option maxRecDepth 8000

/-- Numeric value of a list of ASCII digit characters, mirroring Python `int`
applied to a matched digit group. -/
def numVal (ds : List Char) : Nat :=
  ds.foldl (fun acc c => acc * 10 + (c.toNat - 48)) 0

/-- Value of a single ASCII digit character, mirroring Python `int(s[0])`. -/
def charDigit (c : Char) : Nat := c.toNat - 48

/-- Python `'-L/R' in item_code` (substring test), line 141. -/
def containsLR : List Char → Bool
  | '-' :: 'L' :: '/' :: 'R' :: _ => true
  | _ :: rest => containsLR rest
  | [] => false

/-- Python `item_code.replace('-L/R', '')`, line 143: removes every occurrence
of `-L/R`, scanning left to right without rescanning replaced text. -/
def replaceLR : List Char → List Char
  | '-' :: 'L' :: '/' :: 'R' :: rest => replaceLR rest
  | c :: rest => c :: replaceLR rest
  | [] => []

/-- Orientation handling of `parse_item_code`, lines 140-146 of
`import_cabinet_csv.py`: if the code contains `-L/R` remove it and flag;
else if it ends with `L` or `R` drop the last character and flag;
else leave unchanged.  Returns (stripped code, is_left_right). -/
def stripOrientation (s : List Char) : List Char × Bool :=
  if containsLR s then (replaceLR s, true)
  else if s.getLast? = some 'L' ∨ s.getLast? = some 'R' then (s.dropLast, true)
  else (s, false)

/-- The first two capture groups of a successful regex match.  All four
patterns of `parse_item_code` have at least two groups and the function body
only reads `groups()[0]` and `groups()[1]` (the third group of patterns 1 and
4 is captured but never used). -/
structure MatchRes where
  g0 : List Char
  g1 : List Char
deriving DecidableEq

/-- Pattern 1 (and the identical pattern 4) of `parse_item_code`, line 151:
`^([A-Z]+)(\d+)([A-Z]*)$`.  Since `[A-Z]` and `\d` are disjoint classes the
match, when it exists, is the unique factorization: maximal leading upper-case
run (nonempty), maximal digit run (nonempty), remainder all upper-case. -/
def matchP1 (s : List Char) : Option MatchRes :=
  let ls := s.takeWhile Char.isUpper
  let r1 := s.dropWhile Char.isUpper
  let ds := r1.takeWhile Char.isDigit
  let r2 := r1.dropWhile Char.isDigit
  if ls ≠ [] ∧ ds ≠ [] ∧ r2.all Char.isUpper then some ⟨ls, ds⟩ else none

/-- Pattern 2 of `parse_item_code`, line 153: `^([A-Z]+)(\d{2})(\d{2})$`:
nonempty upper-case block followed by exactly four digits and nothing else;
`groups()[1]` is the first two digits. -/
def matchP2 (s : List Char) : Option MatchRes :=
  let ls := s.takeWhile Char.isUpper
  let r1 := s.dropWhile Char.isUpper
  let ds := r1.takeWhile Char.isDigit
  let r2 := r1.dropWhile Char.isDigit
  if ls ≠ [] ∧ ds.length = 4 ∧ r2 = [] then some ⟨ls, ds.take 2⟩ else none

/-- Pattern 3 of `parse_item_code`, line 155: `^(\d+[A-Z]+)(\d+)$`:
digits then letters (both nonempty, jointly `groups()[0]`), then a nonempty
digit run `groups()[1]` reaching the end of the string. -/
def matchP3 (s : List Char) : Option MatchRes :=
  let d1 := s.takeWhile Char.isDigit
  let r1 := s.dropWhile Char.isDigit
  let l1 := r1.takeWhile Char.isUpper
  let r2 := r1.dropWhile Char.isUpper
  let d2 := r2.takeWhile Char.isDigit
  let r3 := r2.dropWhile Char.isDigit
  if d1 ≠ [] ∧ l1 ≠ [] ∧ d2 ≠ [] ∧ r3 = [] then some ⟨d1 ++ l1, d2⟩ else none

/-- The pattern loop of `parse_item_code`, lines 149-161: the four patterns are
tried in order and the first match wins (pattern 4 is textually identical to
pattern 1). -/
def patMatch (s : List Char) : Option MatchRes :=
  match matchP1 s with
  | some m => some m
  | none =>
    match matchP2 s with
    | some m => some m
    | none =>
      match matchP3 s with
      | some m => some m
      | none => matchP1 s

/-- The `type_mapping` dictionary of `normalize_type_code`, lines 189-214. -/
def type_mapping : List (String × String) :=
  [("BFD", "B"), ("BC", "BC"), ("BLS", "BLS"), ("W", "W"),
   ("2DB", "2DB"), ("3DB", "3DB"), ("4DB", "4DB"), ("5DB", "5DB"),
   ("PC", "PC"), ("V", "V"), ("VB", "VB"), ("VD", "VD"), ("VDB", "VDB"),
   ("VSB", "VSB"), ("SB", "SB"), ("F", "F"), ("PNL", "PNL"), ("D", "D"),
   ("MOC", "MOC"), ("TK", "TK"), ("DWP", "DWP"), ("RP", "RP"),
   ("ADA", "ADA"), ("CF", "CF")]

/-- `CabinetCSVImporter.normalize_type_code`, lines 186-216:
`type_mapping.get(type_code, 'B')` — default to Base if unknown. -/
def normalize_type_code (type_code : String) : String :=
  (type_mapping.lookup type_code).getD "B"

/-- First maximal digit run of a string, as found by Python
`re.search(r'(\d+)', item_code)` (leftmost match, greedy). -/
def firstDigitRun : List Char → Option (List Char)
  | [] => none
  | c :: rest =>
    if c.isDigit then some (c :: rest.takeWhile Char.isDigit)
    else firstDigitRun rest

/-- Numeric value of the first digit run, `int(width_match.group(1))`. -/
def firstNum (s : List Char) : Option Nat := (firstDigitRun s).map numVal

/-- `CabinetCSVImporter.infer_door_drawer_count`, lines 218-241.  The Python
value `type_code` may be `None` (no pattern matched), hence `Option String`.
Returns `(doors, drawers)`. -/
def infer_door_drawer_count (type_code : Option String) (item_code : String) :
    Nat × Nat :=
  if type_code ∈ [some "2DB", some "3DB", some "4DB", some "5DB"] then
    (0, charDigit ((type_code.getD "").data.headD '0'))
  else if type_code ∈ [some "B", some "BFD"] then
    match firstNum item_code.data with
    | some width => (if width < 24 then 1 else 2, 0)
    | none => (0, 0)
  else if type_code = some "W" then (2, 0)
  else (if type_code ∈ [some "F", some "PNL", some "TK", some "D"] then 0 else 1, 0)

/-- The result dictionary of `parse_item_code`, lines 130-138. -/
structure ParseResult where
  width : Option Nat
  height : Option Nat
  depth : Option Nat
  type_code : Option String
  is_left_right : Bool
  door_count : Nat
  drawer_count : Nat
deriving DecidableEq

/-- `CabinetCSVImporter.parse_item_code`, lines 121-184.  Orientation markers
are stripped first; the first matching pattern supplies `groups()[0]` (type
token, normalized in place) and `groups()[1]` (width, or width and height when
it is four digits long; a one-digit group leaves the width unset); if no
pattern matches, `type_code` is never assigned and stays `None`.  Door and
drawer counts are then inferred from the normalized type and the stripped
code.  `depth` is never assigned. -/
def parse_item_code (item_code : String) : ParseResult :=
  let stripped := stripOrientation item_code.data
  let m := patMatch stripped.1
  let type_code : Option String :=
    match m with
    | some g => some (normalize_type_code (String.mk g.g0))
    | none => none
  let width_height : Option Nat × Option Nat :=
    match m with
    | some g =>
      if g.g1.length = 4 then
        (some (numVal (g.g1.take 2)), some (numVal (g.g1.drop 2)))
      else if 2 ≤ g.g1.length then (some (numVal g.g1), none)
      else (none, none)
    | none => (none, none)
  let dd := infer_door_drawer_count type_code (String.mk stripped.1)
  ⟨width_height.1, width_height.2, none, type_code, stripped.2, dd.1, dd.2⟩

/-- The mutable per-instance state of `CabinetCSVImporter` (`self.stats`,
lines 63-70, and the three reference caches, lines 72-75). -/
structure ImporterStats where
  total_rows : Nat
  products_created : Nat
  variants_created : Nat
  pricing_records_created : Nat
  errors : Nat
  duplicates_skipped : Nat

/-- Instance state of `CabinetCSVImporter` visible to its methods. -/
structure ImporterState where
  stats : ImporterStats
  color_options_cache : List (String × Nat)
  box_materials_cache : List (String × Nat)
  cabinet_types_cache : List (String × Nat)

/-- `parse_item_code` as the instance method it is in the source: it takes
`self`, but its body (lines 121-184) reads none of the mutable instance
fields (only the literal tables inside `normalize_type_code` and
`infer_door_drawer_count`) and assigns none, so the embedding returns the
state unchanged and a result that does not depend on it. -/
def parse_item_code_method (self : ImporterState) (item_code : String) :
    ParseResult × ImporterState :=
  (parse_item_code item_code, self)

/-- Width-extraction attempt at one position for `[A-Z]+(\d{2})`
(`simple_import.py` line 77): a nonempty upper-case run followed by two
digits; the group is those two digits.  Shorter letter runs cannot rescue a
failed match because the next character is then a letter, not a digit. -/
def tryLettersTwoDigitsAt (s : List Char) : Option Nat :=
  let ls := s.takeWhile Char.isUpper
  let r := s.dropWhile Char.isUpper
  match ls, r with
  | _ :: _, d1 :: d2 :: _ =>
    if d1.isDigit && d2.isDigit then some (numVal [d1, d2]) else none
  | _, _ => none

/-- `re.search(r'[A-Z]+(\d{2})', item_code)`: leftmost position at which the
pattern matches. -/
def searchLettersTwoDigits : List Char → Option Nat
  | [] => none
  | c :: rest =>
    match tryLettersTwoDigitsAt (c :: rest) with
    | some w => some w
    | none => searchLettersTwoDigits rest

/-- Match attempt at one position for `W(\d{2})\d{2}` (`simple_import.py`
line 81): literal `W` then four digits; the group is the first two. -/
def tryWFourDigitsAt (s : List Char) : Option Nat :=
  match s with
  | 'W' :: d1 :: d2 :: d3 :: d4 :: _ =>
    if d1.isDigit && d2.isDigit && d3.isDigit && d4.isDigit then
      some (numVal [d1, d2])
    else none
  | _ => none

/-- `re.search(r'W(\d{2})\d{2}', item_code)`. -/
def searchWFourDigits : List Char → Option Nat
  | [] => none
  | c :: rest =>
    match tryWFourDigitsAt (c :: rest) with
    | some w => some w
    | none => searchWFourDigits rest

/-- Match attempt at one position for `\d+[A-Z]+(\d+)` (`simple_import.py`
line 85): digits then letters then digits, all nonempty maximal runs; the
group is the trailing digit run. -/
def tryDigitsLettersDigitsAt (s : List Char) : Option Nat :=
  let d1 := s.takeWhile Char.isDigit
  let r1 := s.dropWhile Char.isDigit
  let l1 := r1.takeWhile Char.isUpper
  let r2 := r1.dropWhile Char.isUpper
  let d2 := r2.takeWhile Char.isDigit
  if d1 ≠ [] ∧ l1 ≠ [] ∧ d2 ≠ [] then some (numVal d2) else none

/-- `re.search(r'\d+[A-Z]+(\d+)', item_code)`. -/
def searchDigitsLettersDigits : List Char → Option Nat
  | [] => none
  | c :: rest =>
    match tryDigitsLettersDigitsAt (c :: rest) with
    | some w => some w
    | none => searchDigitsLettersDigits rest

/-- Lines 89-91 of `simple_import.py`: `if width < 6 or width > 96: width = 24`. -/
def clampWidth (width : Nat) : Nat :=
  if width < 6 ∨ width > 96 then 24 else width

/-- Lines 72-88 of `simple_import.py` (`main`): width before the bounds
check.  `width` starts at the default 24; the three `re.match` branch guards
are position-0 match attempts (`re.match` anchors at the start only, and the
trailing `[A-Z]*` of the first pattern and the missing `$` anchors impose no
end condition); inside a taken branch the corresponding `re.search` supplies
the width when it matches (`if width_match:`), else width keeps its previous
value. -/
def rawWidthSimple (item_code : String) : Nat :=
  let s := item_code.data
  if (tryLettersTwoDigitsAt s).isSome then
    (searchLettersTwoDigits s).getD 24
  else if (tryWFourDigitsAt s).isSome then
    (searchWFourDigits s).getD 24
  else if (tryDigitsLettersDigitsAt s).isSome then
    (searchDigitsLettersDigits s).getD 24
  else 24

/-- The complete width computation of `simple_import.py`, lines 72-91. -/
def extractWidthSimple (item_code : String) : Nat :=
  clampWidth (rawWidthSimple item_code)

/-- Modelled from the spec: the claim's Orientation Detector rule-(b) side
condition that the stripped remainder "resolves to a valid canonical type
under the Type Normalizer", read as: some structural pattern matches and the
extracted token is a key of the TypeMapping. -/
def resolvableToValidType (s : List Char) : Bool :=
  match patMatch s with
  | some g => (type_mapping.lookup (String.mk g.g0)).isSome
  | none => false

/-- Second-to-last character is an ASCII digit (the claim's "the character
immediately preceding that letter is a digit"). -/
def precededByDigit (s : List Char) : Bool :=
  match s.dropLast.getLast? with
  | some c => c.isDigit
  | none => false

/-- Modelled from the spec: the Orientation Detector as the claim states it
(spec section 4.1) — rule (a) remove a contained `-L/R` and flag; rule (b)
strip a trailing `L`/`R` only when it is preceded by a digit and the
remainder still resolves to a valid canonical type; rule (c) otherwise flag
false and leave the code unchanged.  This definition exists solely for
comparison against `stripOrientation`, which is the code's behaviour. -/
def specOrientationDetector (s : List Char) : List Char × Bool :=
  if containsLR s then (replaceLR s, true)
  else if (s.getLast? = some 'L' ∨ s.getLast? = some 'R')
      ∧ precededByDigit s = true ∧ resolvableToValidType s.dropLast = true then
    (s.dropLast, true)
  else (s, false)

/-! Helper lemmas: projections of `parse_item_code` in terms of the pipeline
stages, and the bounds of the final width clamp. -/

theorem parse_lr_eq (c : String) :
    (parse_item_code c).is_left_right = (stripOrientation c.data).2 := rfl

theorem parse_type_eq (c : String) :
    (parse_item_code c).type_code =
      (match patMatch (stripOrientation c.data).1 with
       | some g => some (normalize_type_code (String.mk g.g0))
       | none => none) := rfl

theorem parse_width_eq (c : String) :
    (parse_item_code c).width =
      (match patMatch (stripOrientation c.data).1 with
       | some g =>
         if g.g1.length = 4 then
           ((some (numVal (g.g1.take 2)) : Option Nat), some (numVal (g.g1.drop 2)))
         else if 2 ≤ g.g1.length then (some (numVal g.g1), none)
         else (none, none)
       | none => (none, none)).1 := rfl

theorem parse_height_eq (c : String) :
    (parse_item_code c).height =
      (match patMatch (stripOrientation c.data).1 with
       | some g =>
         if g.g1.length = 4 then
           ((some (numVal (g.g1.take 2)) : Option Nat), some (numVal (g.g1.drop 2)))
         else if 2 ≤ g.g1.length then (some (numVal g.g1), none)
         else (none, none)
       | none => (none, none)).2 := rfl

theorem parse_depth_eq (c : String) : (parse_item_code c).depth = none := rfl

theorem parse_door_eq (c : String) :
    (parse_item_code c).door_count =
      (infer_door_drawer_count (parse_item_code c).type_code
        (String.mk (stripOrientation c.data).1)).1 := rfl

theorem parse_drawer_eq (c : String) :
    (parse_item_code c).drawer_count =
      (infer_door_drawer_count (parse_item_code c).type_code
        (String.mk (stripOrientation c.data).1)).2 := rfl

theorem clampWidth_bounds (n : Nat) : 6 ≤ clampWidth n ∧ clampWidth n ≤ 96 := by
  unfold clampWidth
  split
  · exact ⟨by omega, by omega⟩
  · omega

theorem stripOrientation_flag (s : List Char) :
    (stripOrientation s).2 = true ↔
      (containsLR s = true ∨ s.getLast? = some 'L' ∨ s.getLast? = some 'R') := by
  unfold stripOrientation
  by_cases h1 : containsLR s
  · simp [h1]
  · by_cases h2 : s.getLast? = some 'L' ∨ s.getLast? = some 'R'
    · simp [h1, h2]
    · simp [h1, h2]

/-! Claim theorems. -/

/-- C1 (counterexample): the claim "for every decoded record the extracted
width is either unset or lies within [6, 96], out-of-range widths being
replaced by the configured default" is false for
`CabinetCSVImporter.parse_item_code`: decoding `B04` extracts width 4,
which is below 6 and is kept, not replaced. -/
theorem c1_counterexample :
    (parse_item_code "B04").width = some 4 ∧ 4 < 6 := by
  exact ⟨by decide, by decide⟩

/-- C1 (amended): the [6, 96] width bound with default-24 fallback holds for
the width extraction of `simple_import.py` (its final bounds check maps every
out-of-range value, e.g. the 4 extracted from `B04`, to the default 24, and
`B3`, which matches no extraction branch, keeps the default 24); `parse_item_code`
of `import_cabinet_csv.py` applies no bounds check and no default: it keeps
the out-of-range width 4 for `B04` and leaves the width of `B3` unset. -/
theorem c1_amended :
    (∀ c : String, 6 ≤ extractWidthSimple c ∧ extractWidthSimple c ≤ 96)
    ∧ extractWidthSimple "B04" = 24 ∧ extractWidthSimple "B3" = 24
    ∧ (parse_item_code "B04").width = some 4
    ∧ (parse_item_code "B3").width = none := by
  refine ⟨fun c => clampWidth_bounds (rawWidthSimple c), by decide, by decide, by decide, by decide⟩

/-- C2 (counterexample): the claim's Orientation Detector rule (strip a
trailing `L`/`R` only when preceded by a digit and when the remainder still
resolves to a valid canonical type) is false for the code: for `PNL` the
claim's rule leaves the code unchanged with the flag false, while
`parse_item_code` unconditionally strips the trailing `L` and flags true. -/
theorem c2_counterexample :
    (parse_item_code "PNL").is_left_right = true
    ∧ (specOrientationDetector "PNL".data).2 = false := by
  exact ⟨by decide, by decide⟩

/-- C2 (amended): the code's Orientation Detector removes every occurrence of
`-L/R` and flags true when one is present; otherwise it strips any trailing
`L` or `R` unconditionally (no preceding-digit test, no resolvability test)
and flags true; otherwise it flags false and leaves the code unchanged.  So
`is_left_right` is true exactly when the raw code contains `-L/R` or ends in
`L` or `R`; and `decode("B18-L/R")` is flagged true and otherwise resolves
exactly as `B18` does. -/
theorem c2_amended :
    (∀ c : String, (parse_item_code c).is_left_right = true ↔
        (containsLR c.data = true ∨ c.data.getLast? = some 'L'
          ∨ c.data.getLast? = some 'R'))
    ∧ parse_item_code "B18-L/R" =
        ⟨(parse_item_code "B18").width, (parse_item_code "B18").height,
         (parse_item_code "B18").depth, (parse_item_code "B18").type_code,
         true, (parse_item_code "B18").door_count,
         (parse_item_code "B18").drawer_count⟩ := by
  constructor
  · intro c
    rw [parse_lr_eq]
    exact stripOrientation_flag c.data
  · decide

/-- C3: decoding `W3630` yields canonical type `W` (wall), width 36 and
height 30 (the four-digit group split two and two), door count 2, drawer
count 0, and `is_left_right` false. -/
theorem c3_decode_W3630 :
    parse_item_code "W3630" = ⟨some 36, some 30, none, some "W", false, 2, 0⟩ := by
  decide

/-- C4: `2DB24` is matched by the digit + letter-block + digits pattern (the
two earlier patterns reject it), and decoding yields canonical type `2DB`
(2-drawer base), width 24, door count 0, drawer count 2 (the leading digit of
the type token), and `is_left_right` false. -/
theorem c4_decode_2DB24 :
    parse_item_code "2DB24" = ⟨some 24, none, none, some "2DB", false, 0, 2⟩
    ∧ matchP1 "2DB24".data = none ∧ matchP2 "2DB24".data = none
    ∧ matchP3 "2DB24".data = some ⟨"2DB".data, "24".data⟩ := by
  decide

/-- C5 (counterexample): the claim "canonical_type is always assigned (never
empty or null); unmatched codes fall back to the TypeMapping default" is
false: `ABC` matches no pattern and `parse_item_code` leaves its `type_code`
as `None` — `normalize_type_code` is only invoked on a successful match. -/
theorem c5_counterexample : (parse_item_code "ABC").type_code = none := by
  decide

/-- C5 (amended): for every input code matched by none of the ordered
structural patterns, `parse_item_code` leaves `type_code` unset (`None`) —
the TypeMapping default is not applied — and `width`, `height` and `depth`
likewise remain unset. -/
theorem c5_amended (c : String)
    (h : patMatch (stripOrientation c.data).1 = none) :
    (parse_item_code c).type_code = none ∧ (parse_item_code c).width = none
    ∧ (parse_item_code c).height = none ∧ (parse_item_code c).depth = none := by
  refine ⟨?_, ?_, ?_, rfl⟩
  · rw [parse_type_eq, h]
  · rw [parse_width_eq, h]
  · rw [parse_height_eq, h]

/-- C5 (witness): `ABC` matches no pattern, and `parse_item_code` leaves its
type, width, height and depth unset. -/
theorem c5_witness :
    patMatch (stripOrientation "ABC".data).1 = none
    ∧ ((parse_item_code "ABC").type_code = none
       ∧ (parse_item_code "ABC").width = none
       ∧ (parse_item_code "ABC").height = none
       ∧ (parse_item_code "ABC").depth = none) :=
  ⟨by decide, c5_amended "ABC" (by decide)⟩

/-- C6 (counterexample): the claim's "treated as a warning ... and the record
is flagged UnrecognizedTypeToken" is false of the code: `normalize_type_code`
silently returns the default, and the decoded record for the unknown token
`ZQ` (`ZQ99`) is identical to the decoded record for the known token `BFD`
(`BFD99`, which normalizes to the same default `B`) — nothing in the output
distinguishes an unrecognized type token, so no such flag exists. -/
theorem c6_counterexample :
    parse_item_code "ZQ99" = parse_item_code "BFD99"
    ∧ type_mapping.lookup "ZQ" = none
    ∧ type_mapping.lookup "BFD" = some "B" := by
  exact ⟨by decide, by decide, by decide⟩

/-- C6 (amended): for every structurally matched code whose extracted type token is not
a key of the TypeMapping, the decoded canonical type is the designated
default `B` (base). -/
theorem c6_unknown_token_default (c : String) (g : MatchRes)
    (h1 : patMatch (stripOrientation c.data).1 = some g)
    (h2 : type_mapping.lookup (String.mk g.g0) = none) :
    (parse_item_code c).type_code = some "B" := by
  rw [parse_type_eq, h1]
  show some (normalize_type_code (String.mk g.g0)) = some "B"
  unfold normalize_type_code
  rw [h2]
  rfl

/-- C6 (witness): `ZQ99` is structurally matched with type token `ZQ`, which
is not in the TypeMapping, and decodes to the default canonical type `B`. -/
theorem c6_witness :
    patMatch (stripOrientation "ZQ99".data).1 = some ⟨"ZQ".data, "99".data⟩
    ∧ type_mapping.lookup (String.mk "ZQ".data) = none
    ∧ (parse_item_code "ZQ99").type_code = some "B" :=
  ⟨by decide, by decide,
   c6_unknown_token_default "ZQ99" ⟨"ZQ".data, "99".data⟩ (by decide) (by decide)⟩

/-- C7 (code evaluated at the failing input): for `B24FD` the pattern loop
captures only the leading letter block `B` as the type token — the trailing
suffix `FD` is captured in the unused third group and discarded, so the
Type Normalizer receives `B`, not the folded token `BFD` that the claim (and
the function's own docstring example, and the `BFD` entry of the
type_mapping) describe.  The digit group does become the width.  The
divergence is observable: for `V24DB` the code yields canonical type `V`,
while folding the suffix would yield the distinct canonical type `VDB`. -/
theorem c7_suffix_discarded :
    patMatch "B24FD".data = some ⟨"B".data, "24".data⟩
    ∧ (parse_item_code "B24FD").type_code = some "B"
    ∧ (parse_item_code "B24FD").width = some 24
    ∧ normalize_type_code "BFD" = "B"
    ∧ (parse_item_code "V24DB").type_code = some "V"
    ∧ normalize_type_code "VDB" = "VDB" := by
  decide

/-- C8 (counterexample): the claim "for base-family codes door_count is 1
when the record's extracted width is below 24 and 2 otherwise" is false:
`B1830` decodes to base type with extracted width 18 < 24, yet the inferred
door count is 2, because the inference compares the whole first digit run
(1830) with 24 instead of the extracted width. -/
theorem c8_counterexample :
    (parse_item_code "B1830").width = some 18 ∧ 18 < 24
    ∧ (parse_item_code "B1830").door_count = 2 := by
  exact ⟨by decide, by decide, by decide⟩

/-- C8 (amended): for every code whose decoded canonical type is the base
family `B`, the inferred door count is 1 when the numeric value of the first
digit run of the orientation-stripped code is below 24 and 2 otherwise (this
equals the extracted width for two- and three-digit groups but not for
four-digit groups), and the drawer count is 0. -/
theorem c8_amended (c : String) (w : Nat)
    (h1 : (parse_item_code c).type_code = some "B")
    (h2 : firstNum (stripOrientation c.data).1 = some w) :
    (parse_item_code c).door_count = (if w < 24 then 1 else 2)
    ∧ (parse_item_code c).drawer_count = 0 := by
  rw [parse_door_eq, parse_drawer_eq, h1]
  unfold infer_door_drawer_count
  rw [if_neg (by decide), if_pos (by decide)]
  rw [show (String.mk (stripOrientation c.data).1).data
        = (stripOrientation c.data).1 from rfl, h2]
  exact ⟨rfl, rfl⟩

/-- C8 (witness): `B18` decodes to base type `B` with first digit run 18, and
the amended rule gives door count 1 and drawer count 0. -/
theorem c8_witness :
    (parse_item_code "B18").type_code = some "B"
    ∧ firstNum (stripOrientation "B18".data).1 = some 18
    ∧ ((parse_item_code "B18").door_count = (if 18 < 24 then 1 else 2)
       ∧ (parse_item_code "B18").drawer_count = 0) :=
  ⟨by decide, by decide, c8_amended "B18" 18 (by decide) (by decide)⟩

/-- C9: decoding is deterministic and stateless: running `parse_item_code`
(as the instance method it is in the source) twice on the same code yields
identical results, the result does not depend on the instance state, and the
method leaves the instance state unchanged. -/
theorem c9_determinism :
    (∀ (st : ImporterState) (c : String),
       (parse_item_code_method st c).1
         = (parse_item_code_method (parse_item_code_method st c).2 c).1)
    ∧ (∀ (st st' : ImporterState) (c : String),
       (parse_item_code_method st c).1 = (parse_item_code_method st' c).1)
    ∧ (∀ (st : ImporterState) (c : String),
       (parse_item_code_method st c).2 = st) :=
  ⟨fun _ _ => rfl, fun _ _ _ => rfl, fun _ _ => rfl⟩

/-- C10: for every type code and item code, the inferred door and drawer
counts are naturals (hence nonnegative), the drawer count is nonzero exactly
for the drawer-base tokens `2DB`, `3DB`, `4DB`, `5DB`, the door count is 0
for those tokens, and door and drawer count are never both positive (their
product is 0): the combined door+drawer case is never produced. -/
theorem c10_door_drawer_invariant (tc : Option String) (ic : String) :
    0 ≤ (infer_door_drawer_count tc ic).1
    ∧ ((infer_door_drawer_count tc ic).2 ≠ 0 ↔
        tc ∈ [some "2DB", some "3DB", some "4DB", some "5DB"])
    ∧ (tc ∈ [some "2DB", some "3DB", some "4DB", some "5DB"] →
        (infer_door_drawer_count tc ic).1 = 0)
    ∧ (infer_door_drawer_count tc ic).1 * (infer_door_drawer_count tc ic).2 = 0 := by
  unfold infer_door_drawer_count
  by_cases h1 : tc ∈ [some "2DB", some "3DB", some "4DB", some "5DB"]
  · rw [if_pos h1]
    have h2 := h1
    simp only [List.mem_cons, List.not_mem_nil, or_false] at h2
    rcases h2 with rfl | rfl | rfl | rfl <;>
      exact ⟨Nat.zero_le _, by simp [h1, charDigit], fun _ => rfl, rfl⟩
  · rw [if_neg h1]
    by_cases h2 : tc ∈ [some "B", some "BFD"]
    · rw [if_pos h2]
      cases hf : firstNum ic.data with
      | some w =>
        refine ⟨Nat.zero_le _, by simp [h1], fun hm => absurd hm h1, ?_⟩
        simp
      | none =>
        exact ⟨Nat.zero_le _, by simp [h1], fun hm => absurd hm h1, rfl⟩
    · rw [if_neg h2]
      by_cases h3 : tc = some "W"
      · rw [if_pos h3]
        exact ⟨Nat.zero_le _, by simp [h1], fun hm => absurd hm h1, rfl⟩
      · rw [if_neg h3]
        exact ⟨Nat.zero_le _, by simp [h1], fun hm => absurd hm h1, by simp⟩

/-- C10 (witness): the invariant instantiated at type token `2DB` and item
code `2DB24`. -/
theorem c10_witness :
    0 ≤ (infer_door_drawer_count (some "2DB") "2DB24").1
    ∧ ((infer_door_drawer_count (some "2DB") "2DB24").2 ≠ 0 ↔
        (some "2DB") ∈ [some "2DB", some "3DB", some "4DB", some "5DB"])
    ∧ ((some "2DB") ∈ [some "2DB", some "3DB", some "4DB", some "5DB"] →
        (infer_door_drawer_count (some "2DB") "2DB24").1 = 0)
    ∧ (infer_door_drawer_count (some "2DB") "2DB24").1
        * (infer_door_drawer_count (some "2DB") "2DB24").2 = 0 :=
  c10_door_drawer_invariant (some "2DB") "2DB24"
